import Mathlib

/-
Verification of the silence-gated audio capture engine of the `lumine`
repository.  The definitions below are a shallow embedding of the Rust
sources under `src/`:

* `src/ffmpeg/devices.rs`, `src/audio/devices.rs` : `AudioInputDevice`
* `src/ffmpeg/errors.rs`, `src/audio/errors.rs`   : error enums
* `src/ffmpeg/mod.rs`                              : `FFMPEG` supervisor
* `src/audio/recorder.rs`                          : `AudioRecorder` (same logic)
* `src/audio/platform/linux.rs`, `macos.rs`        : platform catalog/builders

External effects (process spawning, the stderr byte stream, directory
creation, `wait`) are represented by explicit inputs, so every function
is executable.
-/

namespace Lumine

/-- ASCII whitespace, the fragment of the regex class `\s` exercised by the
diagnostic outputs (space, tab, newline, carriage return, vertical tab,
form feed). -/
def isSpaceChar (c : Char) : Bool :=
  c == ' ' || c == '\t' || c == '\n' || c == '\r' ||
    c == Char.ofNat 11 || c == Char.ofNat 12

/-- ASCII decimal digit, the fragment of the regex class `\d` exercised by
the device-list outputs. -/
def isDigitChar (c : Char) : Bool :=
  '0' ≤ c && c ≤ '9'

/-- `isPrefixOfList p h` holds when `p` is a prefix of `h` (character lists). -/
def isPrefixOfList : List Char → List Char → Bool
  | [], _ => true
  | _ :: _, [] => false
  | p :: ps, h :: hs => p == h && isPrefixOfList ps hs

/-- `containsSub pat hay` holds when `pat` occurs as a contiguous substring of
`hay`; embeds the Rust `str::contains` method with a literal pattern. -/
def containsSub (pat : List Char) : List Char → Bool
  | [] => isPrefixOfList pat []
  | c :: hs => isPrefixOfList pat (c :: hs) || containsSub pat hs

/-- Rust `hay.contains(pat)` for strings. -/
def strContains (hay pat : String) : Bool :=
  containsSub pat.data hay.data

/-- `AudioInputDevice` from `src/ffmpeg/devices.rs` / `src/audio/devices.rs`:
a device index together with a human-readable name. -/
structure AudioInputDevice where
  index : String
  name : String
deriving DecidableEq

/-- `AudioInputDevice::default()`: the sentinel fallback device with
`id = name = "default"`. -/
def defaultDevice : AudioInputDevice :=
  { index := "default", name := "default" }

/-- `FFMPEGError` from `src/ffmpeg/errors.rs`. -/
inductive FFMPEGError
  | notFound
  | couldNotExecute
  | couldNotReadOutput
  | couldNotCreateDirectory
deriving DecidableEq

/-- `AudioError` from `src/audio/errors.rs` (the variants used by the
recording path). -/
inductive AudioError
  | fileNotFound (path : String)
  | conversionFailed
  | ffmpegNotFound
  | couldNotExecuteFFMPEG
  | couldNotReadFFMPEGOutput
  | couldNotCreateDirectory
deriving DecidableEq

/-- The scan loop of `FFMPEG::select_audio_input_device`
(`src/ffmpeg/mod.rs:131-144`, identically `src/audio/recorder.rs:124-137`
and the two platform impls): return the first device whose name contains
the preferred substring, else the sentinel. -/
def selectLoop (preferred : String) : List AudioInputDevice → AudioInputDevice
  | [] => defaultDevice
  | d :: ds => if strContains d.name preferred then d else selectLoop preferred ds

/-- `FFMPEG::select_audio_input_device` (`src/ffmpeg/mod.rs:116-151`):
empty preference yields the sentinel; otherwise first substring match in
catalog order, sentinel if none matches. -/
def selectAudioInputDevice (preferred : String)
    (devices : List AudioInputDevice) : AudioInputDevice :=
  if preferred.isEmpty then defaultDevice
  else selectLoop preferred devices

/-- Unix `std::process::ExitStatus`: a process either exited with a code or
was terminated by a signal. -/
inductive ExitStatus
  | exited (code : Nat)
  | signaled (sig : Nat)
deriving DecidableEq

/-- `ExitStatus::code()`: the exit code when the process exited normally. -/
def ExitStatus.code : ExitStatus → Option Nat
  | .exited c => some c
  | .signaled _ => none

/-- `ExitStatus::success()`, which on Unix is `self.code() == Some(0)`:
true exactly when the process exited normally with code 0. -/
def ExitStatus.success (st : ExitStatus) : Bool :=
  st.code == some 0

/-- `ExitStatusExt::signal()`: the signal when the process was terminated by
one. -/
def ExitStatus.signal : ExitStatus → Option Nat
  | .exited _ => none
  | .signaled s => some s

/-- The exit-status check ending `FFMPEG::record_audio_with_device`
(`src/ffmpeg/mod.rs:272-286`, identically `src/audio/recorder.rs:265-279`):
fail with the backend-execution error unless the status is success, exit
code 255, or kill signal 9; otherwise return the output file path. -/
def finishRecording (status : ExitStatus) (outputFile : String) :
    Except FFMPEGError String :=
  if !status.success && status.code != some 255 && status.signal != some 9 then
    Except.error FFMPEGError.couldNotExecute
  else
    Except.ok outputFile

/-- `LinuxPlatform::build_ffmpeg_recording_arguments`
(`src/audio/platform/linux.rs:103-126`). -/
def buildLinuxRecordingArguments (deviceIndex : String)
    (silenceLimit silenceDetectNoise : Int) (outputFile : String) :
    List String :=
  ["-f", "pulse",
   "-i", ":" ++ deviceIndex,
   "-acodec", "pcm_s16le",
   "-af", "silencedetect=n=-" ++ toString silenceDetectNoise ++ "dB:d="
     ++ toString silenceLimit,
   outputFile,
   "-y"]

/-- `MacOSPlatform::build_ffmpeg_recording_arguments`
(`src/audio/platform/macos.rs:97-121`). -/
def buildMacOSRecordingArguments (deviceIndex : String)
    (silenceLimit silenceDetectNoise : Int) (outputFile : String) :
    List String :=
  ["-f", "avfoundation",
   "-i", ":" ++ deviceIndex,
   "-acodec", "pcm_s16le",
   "-af", "silencedetect=n=-" ++ toString silenceDetectNoise ++ "dB:d="
     ++ toString silenceLimit,
   outputFile,
   "-y"]

/-- Modelled from the spec: the `build_ffmpeg_recording_arguments`
implementation that matches the trait signature of
`src/audio/platform/mod.rs:56-63` (which takes `max_recording_duration`,
documented as `0 = unlimited`) is not among the provided platform sources;
the `linux.rs`/`macos.rs` files predate that parameter.  Per spec section
4.3, when `max_duration > 0` the platform duration-limit flag (`-t` for the
ffmpeg recorder) is appended after the base argument list, and 0 emits no
duration flag. -/
def buildRecordingArgumentsWithMaxDuration (platformInputFormat : String)
    (deviceIndex : String) (silenceLimit silenceDetectNoise : Int)
    (maxRecordingDuration : Int) (outputFile : String) : List String :=
  ["-f", platformInputFormat,
   "-i", ":" ++ deviceIndex,
   "-acodec", "pcm_s16le",
   "-af", "silencedetect=n=-" ++ toString silenceDetectNoise ++ "dB:d="
     ++ toString silenceLimit,
   outputFile,
   "-y"]
  ++ (if 0 < maxRecordingDuration then ["-t", toString maxRecordingDuration]
      else [])

/-- Core of the Linux device-line regex
`^\s*(?:\*\s)?([^\s]+)\s+\[([^\]]+)\]` after `^\s*` and the optional
`(?:\*\s)?` have been handled: a nonempty run of non-whitespace characters
(the id), at least one whitespace character, then a nonempty bracketed name
(`src/audio/platform/linux.rs:36`). -/
def matchTokenBracket (cs : List Char) : Option (String × String) :=
  if (cs.takeWhile (fun c => !isSpaceChar c)).isEmpty then none
  else if ((cs.dropWhile (fun c => !isSpaceChar c)).takeWhile isSpaceChar).isEmpty then
    none
  else
    match (cs.dropWhile (fun c => !isSpaceChar c)).dropWhile isSpaceChar with
    | '[' :: cs2 =>
      if (cs2.takeWhile (fun c => c != ']')).isEmpty then none
      else
        match cs2.dropWhile (fun c => c != ']') with
        | ']' :: _ =>
          some (String.mk (cs.takeWhile (fun c => !isSpaceChar c)),
            String.mk (cs2.takeWhile (fun c => c != ']')))
        | _ => none
    | _ => none

/-- Full match of the Linux device-line regex against a line, including the
leading `^\s*` and the optional `(?:\*\s)?` with its backtracking: if
consuming a `"* "` prefix lets the rest match, the star is dropped,
otherwise the star participates in the id token. -/
def pulseLineCapture (line : List Char) : Option (String × String) :=
  let cs := line.dropWhile isSpaceChar
  match cs with
  | '*' :: c :: rest =>
    if isSpaceChar c then
      match matchTokenBracket rest with
      | some r => some r
      | none => matchTokenBracket cs
    else matchTokenBracket cs
  | _ => matchTokenBracket cs

/-- The line loop of `LinuxPlatform::get_audio_input_devices`
(`src/audio/platform/linux.rs:38-55`): a header line containing
`"Auto-detected sources for pulse"` opens the audio section; afterwards
every line containing `"_input"` that matches the device regex contributes
one catalog entry, in line order. -/
def parsePulseLoop : Bool → List String → List AudioInputDevice
  | _, [] => []
  | audioSection, line :: rest =>
    if strContains line "Auto-detected sources for pulse" then
      parsePulseLoop true rest
    else if audioSection && strContains line "_input" then
      match pulseLineCapture line.data with
      | some (idx, nm) =>
        { index := idx, name := nm } :: parsePulseLoop audioSection rest
      | none => parsePulseLoop audioSection rest
    else
      parsePulseLoop audioSection rest

/-- Catalog extracted from the diagnostic lines of `ffmpeg -sources pulse`. -/
def parsePulseDeviceLines (lines : List String) : List AudioInputDevice :=
  parsePulseLoop false lines

/-- `LinuxPlatform::get_audio_input_devices` (`src/audio/platform/linux.rs:22-65`),
with the tool invocation represented by its result: `none` when the tool
could not be invoked, otherwise the stderr lines. -/
def linuxListInputDevices (output : Option (List String)) :
    Except AudioError (List AudioInputDevice) :=
  match output with
  | none => Except.error AudioError.couldNotExecuteFFMPEG
  | some lines => Except.ok (parsePulseDeviceLines lines)

/-- Match of the macOS device-line regex `\[(\d+)\]\s+(.*)` at the head of
`cs`: a bracketed nonempty digit run (the id), at least one whitespace
character, then the rest of the line as the name. -/
def avfMatchAt : List Char → Option (String × String)
  | '[' :: rest =>
    if (rest.takeWhile isDigitChar).isEmpty then none
    else
      match rest.dropWhile isDigitChar with
      | ']' :: rest3 =>
        if (rest3.takeWhile isSpaceChar).isEmpty then none
        else some (String.mk (rest.takeWhile isDigitChar),
          String.mk (rest3.dropWhile isSpaceChar))
      | _ => none
  | _ => none

/-- Unanchored (leftmost) search of the macOS device-line regex in a line. -/
def avfLineCapture : List Char → Option (String × String)
  | [] => none
  | c :: cs =>
    match avfMatchAt (c :: cs) with
    | some r => some r
    | none => avfLineCapture cs

/-- The line loop of `FFMPEG::get_audio_input_devices`
(`src/ffmpeg/mod.rs:87-104`, identically `MacOSPlatform` in
`src/audio/platform/macos.rs:32-49`): a header line containing
`"AVFoundation audio devices"` opens the audio section; afterwards every
line matching the device regex contributes one catalog entry. -/
def parseAVFLoop : Bool → List String → List AudioInputDevice
  | _, [] => []
  | audioSection, line :: rest =>
    if strContains line "AVFoundation audio devices" then
      parseAVFLoop true rest
    else if audioSection then
      match avfLineCapture line.data with
      | some (idx, nm) =>
        { index := idx, name := nm } :: parseAVFLoop audioSection rest
      | none => parseAVFLoop audioSection rest
    else
      parseAVFLoop audioSection rest

/-- Catalog extracted from the diagnostic lines of the AVFoundation device
listing. -/
def parseAVFoundationDeviceLines (lines : List String) : List AudioInputDevice :=
  parseAVFLoop false lines

/-- `FFMPEG::get_audio_input_devices` (`src/ffmpeg/mod.rs:74-114`), with the
tool invocation represented by its result. -/
def ffmpegGetAudioInputDevices (output : Option (List String)) :
    Except FFMPEGError (List AudioInputDevice) :=
  match output with
  | none => Except.error FFMPEGError.couldNotExecute
  | some lines => Except.ok (parseAVFoundationDeviceLines lines)

/-- The scan loop of `FFMPEG::check_ffmpeg` (`src/ffmpeg/mod.rs:63-71`):
succeed on the first stdout line containing `"ffmpeg version"`, fail with
`NotFound` when no line carries the marker. -/
def checkFFmpegLoop : List String → Except FFMPEGError Bool
  | [] => Except.error FFMPEGError.notFound
  | l :: ls =>
    if strContains l "ffmpeg version" then Except.ok true
    else checkFFmpegLoop ls

/-- `FFMPEG::check_ffmpeg` (`src/ffmpeg/mod.rs:55-72`): `none` represents a
failed invocation of `ffmpeg -version` (mapped to `NotFound`), otherwise
the stdout lines are scanned for the version marker. -/
def checkFFmpeg (versionOutput : Option (List String)) :
    Except FFMPEGError Bool :=
  match versionOutput with
  | none => Except.error FFMPEGError.notFound
  | some lines => checkFFmpegLoop lines

/-- External-effect inputs of one `FFMPEG::record_audio` run
(`src/ffmpeg/mod.rs`): each field stands for the outcome of one effect, in
the order the code performs them. -/
structure FFmpegEnv where
  /-- stdout lines of `ffmpeg -version`; `none` = the probe could not run. -/
  versionOutput : Option (List String)
  /-- stderr lines of the device-list probe; `none` = it could not run. -/
  listOutput : Option (List String)
  /-- `prefered_audio_input_device` from the configuration. -/
  preferredDevice : String
  /-- whether `create_directory_all(recordings_directory)` succeeds. -/
  createDirectoryOk : Bool
  /-- whether spawning the recording subprocess succeeds. -/
  spawnOk : Bool
  /-- whether taking the stderr pipe of the spawned process succeeds. -/
  stderrPipeOk : Bool
  /-- result of `wait()` on the subprocess; `none` = the wait itself failed. -/
  waitStatus : Option ExitStatus
  /-- the timestamped output path built for this run. -/
  outputFile : String

/-- `FFMPEG::record_audio_with_device` (`src/ffmpeg/mod.rs:153-287`),
abstracting the line loop (which does not affect the returned value) and
pairing the result with whether the recording subprocess was spawned. -/
def recordAudioWithDevice (env : FFmpegEnv) (_device : AudioInputDevice) :
    Except FFMPEGError String × Bool :=
  if !env.createDirectoryOk then
    (Except.error FFMPEGError.couldNotCreateDirectory, false)
  else if !env.spawnOk then
    (Except.error FFMPEGError.couldNotExecute, false)
  else if !env.stderrPipeOk then
    (Except.error FFMPEGError.couldNotReadOutput, true)
  else
    match env.waitStatus with
    | none => (Except.error FFMPEGError.couldNotExecute, true)
    | some status => (finishRecording status env.outputFile, true)

/-- `FFMPEG::record_audio` (`src/ffmpeg/mod.rs:48-53`): version probe, device
listing, selection, then the supervised recording; the boolean records
whether a recording subprocess was ever spawned. -/
def recordAudio (env : FFmpegEnv) : Except FFMPEGError String × Bool :=
  match checkFFmpeg env.versionOutput with
  | Except.error e => (Except.error e, false)
  | Except.ok _ =>
    match ffmpegGetAudioInputDevices env.listOutput with
    | Except.error e => (Except.error e, false)
    | Except.ok devices =>
      recordAudioWithDevice env
        (selectAudioInputDevice env.preferredDevice devices)

/-- Shared state of the line-reading loop and the silence-timer tasks in
`FFMPEG::record_audio_with_device` (`src/ffmpeg/mod.rs:199-263`, identically
`src/audio/recorder.rs:192-256`): the contents of the `should_kill` mutex
(initialised to `true`), the number of spawned timer tasks whose sleep has
not yet elapsed, and whether `kill()` has been issued on the subprocess. -/
structure CaptureState where
  shouldKill : Bool
  pendingTimers : Nat
  killed : Bool
deriving DecidableEq

/-- State right after the subprocess is spawned:
`should_kill = Mutex::new(true)`, no timer task, no kill issued. -/
def initialCaptureState : CaptureState :=
  { shouldKill := true, pendingTimers := 0, killed := false }

/-- Atomic actions of the loop thread and the timer tasks.  Dropping or
overwriting the `_timer: Option<JoinHandle<()>>` binding only drops the
`JoinHandle`, which detaches the tokio task without aborting it, so
`dropTimerHandle` leaves the pending timers untouched. -/
inductive CaptureAction
  /-- `*should_kill.lock().unwrap() = b`. -/
  | setFlag (b : Bool)
  /-- `tokio::spawn` of a sleep-then-check-then-kill task
  (`src/ffmpeg/mod.rs:237-246`). -/
  | spawnTimer
  /-- `_timer = Some(..)` overwriting the old handle, or `_timer = None`. -/
  | dropTimerHandle
  /-- the sleep of one pending timer elapses: it locks the flag, reads it, and
  kills the subprocess exactly when the flag is set
  (`src/ffmpeg/mod.rs:240-245`). -/
  | fireTimer
deriving DecidableEq

/-- Effect of one atomic action on the shared state. -/
def captureStep (s : CaptureState) : CaptureAction → CaptureState
  | .setFlag b => { s with shouldKill := b }
  | .spawnTimer => { s with pendingTimers := s.pendingTimers + 1 }
  | .dropTimerHandle => s
  | .fireTimer =>
    match s.pendingTimers with
    | 0 => s
    | n + 1 => { s with pendingTimers := n, killed := s.killed || s.shouldKill }

/-- Run a sequence of atomic actions (one interleaving of the loop thread
and the timer tasks). -/
def runCapture : CaptureState → List CaptureAction → CaptureState
  | s, [] => s
  | s, a :: rest => runCapture (captureStep s a) rest

/-- Actions of the `silence_start` branch (`src/ffmpeg/mod.rs:225-247`):
set the flag to `true`, then spawn a fresh timer task (the previous handle,
if any, is merely overwritten). -/
def silenceStartActions : List CaptureAction :=
  [CaptureAction.setFlag true, CaptureAction.spawnTimer,
   CaptureAction.dropTimerHandle]

/-- Actions of the `silence_end` branch (`src/ffmpeg/mod.rs:249-255`):
set the flag to `false`, then drop the stored handle (`_timer = None`). -/
def silenceEndActions : List CaptureAction :=
  [CaptureAction.setFlag false, CaptureAction.dropTimerHandle]

/-- Actions performed by the loop body for one diagnostic line
(`src/ffmpeg/mod.rs:225-257`): the `silence_start` check runs first, the
`silence_end` check second; any other content leaves the state alone. -/
def lineActions (line : String) : List CaptureAction :=
  (if strContains line "silence_start" then silenceStartActions else [])
  ++ (if strContains line "silence_end" then silenceEndActions else [])

/-- State after the loop body has handled one diagnostic line with no timer
firing interleaved. -/
def processLine (s : CaptureState) (line : String) : CaptureState :=
  runCapture s (lineActions line)

theorem runCapture_append (xs ys : List CaptureAction) :
    ∀ s : CaptureState, runCapture s (xs ++ ys) = runCapture (runCapture s xs) ys := by
  induction xs with
  | nil => intro s; rfl
  | cons a rest ih => intro s; exact ih (captureStep s a)

/-- While the shared flag is cleared and no action sets it again, no timer
firing can issue a kill: the killed bit is unchanged by any such action
sequence and the flag stays cleared. -/
theorem killed_stable_of_disarmed :
    ∀ (actions : List CaptureAction) (s : CaptureState),
    s.shouldKill = false →
    (∀ a ∈ actions, a ≠ CaptureAction.setFlag true) →
    (runCapture s actions).killed = s.killed ∧
      (runCapture s actions).shouldKill = false
  | [], _, hs, _ => ⟨rfl, hs⟩
  | a :: rest, s, hs, hno => by
    have hrest : ∀ b ∈ rest, b ≠ CaptureAction.setFlag true := by
      intro b hb
      exact hno b (List.mem_cons_of_mem a hb)
    have hstep : (captureStep s a).shouldKill = false ∧
        (captureStep s a).killed = s.killed := by
      cases a with
      | setFlag b =>
        cases b with
        | false => exact ⟨rfl, rfl⟩
        | true => exact absurd rfl (hno _ (List.mem_cons_self _ _))
      | spawnTimer => exact ⟨hs, rfl⟩
      | dropTimerHandle => exact ⟨hs, rfl⟩
      | fireTimer =>
        cases hp : s.pendingTimers with
        | zero => simp [captureStep, hp, hs]
        | succ n => simp [captureStep, hp, hs]
    have ih := killed_stable_of_disarmed rest (captureStep s a) hstep.1 hrest
    exact ⟨ih.1.trans hstep.2, ih.2⟩

/-- Handling any line containing the `silence_end` marker leaves the shared
flag cleared, whether or not the line also contains `silence_start` (the
start branch runs first). -/
theorem processLine_flag_of_end (s : CaptureState) (line : String)
    (hend : strContains line "silence_end" = true) :
    (processLine s line).shouldKill = false := by
  unfold processLine lineActions
  rw [hend]
  cases hstart : strContains line "silence_start" <;> simp <;> rfl

/-- Claim C1: for every capture in the Recording state, once a `silence_end`
line has been processed (clearing the shared `should_kill` flag under its
mutex) and no later action re-arms the flag, no timer that fires afterwards
kills the subprocess: the state after the disarm has the flag cleared, the
killed bit is unchanged by any subsequent re-arm-free action sequence
(timer firings included), and a timer firing with the flag cleared re-checks
the flag at that instant and skips the kill. -/
theorem c1_disarm_prevents_later_timer_kill
    (s t : CaptureState) (endLine : String) (later : List CaptureAction)
    (hend : strContains endLine "silence_end" = true)
    (hno : ∀ a ∈ later, a ≠ CaptureAction.setFlag true) :
    (processLine s endLine).shouldKill = false
    ∧ (runCapture (processLine s endLine) later).killed
        = (processLine s endLine).killed
    ∧ (t.shouldKill = false →
        (captureStep t CaptureAction.fireTimer).killed = t.killed) := by
  have hflag := processLine_flag_of_end s endLine hend
  refine ⟨hflag, (killed_stable_of_disarmed later _ hflag hno).1, ?_⟩
  intro ht
  cases hp : t.pendingTimers with
  | zero => simp [captureStep, hp]
  | succ n => simp [captureStep, hp, ht]

/-- Closed instance of C1: from the initial state, a `silence_start` line
followed by a `silence_end` line and then a timer firing leaves the killed
bit untouched. -/
theorem c1_witness :
    (runCapture
        (processLine (processLine initialCaptureState "silence_start detected")
          "silence_end reached")
        [CaptureAction.fireTimer]).killed
      = (processLine (processLine initialCaptureState "silence_start detected")
          "silence_end reached").killed :=
  (c1_disarm_prevents_later_timer_kill
    (processLine initialCaptureState "silence_start detected")
    initialCaptureState "silence_end reached" [CaptureAction.fireTimer]
    (by decide) (by decide)).2.1

/-- Claim C2, evaluated at the failing schedule: after the line sequence
`silence_start`, `silence_end`, `silence_start`, two timer tasks are pending
simultaneously (overwriting the `_timer` handle only detaches the first
task, it does not cancel it), and when the orphaned first timer fires —
which its earlier deadline allows before the window of the second timer has
elapsed — it kills the subprocess. -/
theorem c2_orphaned_timer_kills :
    (runCapture initialCaptureState
        (lineActions "silence_start" ++ lineActions "silence_end"
          ++ lineActions "silence_start")).pendingTimers = 2
    ∧ (runCapture initialCaptureState
        (lineActions "silence_start" ++ lineActions "silence_end"
          ++ lineActions "silence_start"
          ++ [CaptureAction.fireTimer])).killed = true := by
  decide

/-- Claim C10: a single diagnostic line containing both markers is handled
with the `silence_start` branch first and the `silence_end` branch second,
so afterwards the shared flag is cleared, exactly one more timer is pending
(the just-armed one), and as long as no later action re-arms the flag, no
subsequent timer firing — that of the just-armed timer included — kills the
subprocess. -/
theorem c10_both_markers_line_disarms
    (s : CaptureState) (line : String) (later : List CaptureAction)
    (hs : strContains line "silence_start" = true)
    (he : strContains line "silence_end" = true)
    (hno : ∀ a ∈ later, a ≠ CaptureAction.setFlag true) :
    lineActions line = silenceStartActions ++ silenceEndActions
    ∧ (processLine s line).shouldKill = false
    ∧ (processLine s line).pendingTimers = s.pendingTimers + 1
    ∧ (runCapture (processLine s line) later).killed = (processLine s line).killed := by
  have hacts : lineActions line = silenceStartActions ++ silenceEndActions := by
    unfold lineActions
    rw [hs, he]
    simp
  have hflag := processLine_flag_of_end s line he
  refine ⟨hacts, hflag, ?_, (killed_stable_of_disarmed later _ hflag hno).1⟩
  unfold processLine
  rw [hacts]
  rfl

/-- Closed instance of C10: from the initial state, a line carrying both
markers leaves the flag cleared, one pending timer, and a following timer
firing does not kill. -/
theorem c10_witness :
    (processLine initialCaptureState "silence_start then silence_end").shouldKill = false
    ∧ (processLine initialCaptureState "silence_start then silence_end").pendingTimers = 1
    ∧ (runCapture (processLine initialCaptureState "silence_start then silence_end")
        [CaptureAction.fireTimer]).killed
      = (processLine initialCaptureState "silence_start then silence_end").killed := by
  have h := c10_both_markers_line_disarms initialCaptureState
    "silence_start then silence_end" [CaptureAction.fireTimer]
    (by decide) (by decide) (by decide)
  exact ⟨h.2.1, h.2.2.1, h.2.2.2⟩

/-- Claim C3: the supervisor returns the output file path exactly when the
exit status reports ordinary success, or termination by the kill signal the
supervisor uses (signal 9), or the immediate-stop exit code 255; every
other status yields the backend-execution failure error. -/
theorem c3_exit_status_classification (status : ExitStatus) (outputFile : String) :
    (finishRecording status outputFile = Except.ok outputFile
      ↔ (status.success = true ∨ status.signal = some 9 ∨ status.code = some 255))
    ∧ (finishRecording status outputFile = Except.error FFMPEGError.couldNotExecute
      ↔ ¬(status.success = true ∨ status.signal = some 9 ∨ status.code = some 255)) := by
  cases status with
  | exited c =>
    by_cases h0 : c = 0
    · subst h0
      simp [finishRecording, ExitStatus.success, ExitStatus.code, ExitStatus.signal]
    · by_cases h255 : c = 255
      · subst h255
        simp [finishRecording, ExitStatus.success, ExitStatus.code, ExitStatus.signal]
      · simp [finishRecording, ExitStatus.success, ExitStatus.code, ExitStatus.signal,
          h0, h255]
  | signaled sg =>
    by_cases h9 : sg = 9
    · subst h9
      simp [finishRecording, ExitStatus.success, ExitStatus.code, ExitStatus.signal]
    · simp [finishRecording, ExitStatus.success, ExitStatus.code, ExitStatus.signal, h9]

/-- Scanning a run of devices none of which matches the preferred substring
does not change the selection outcome. -/
theorem selectLoop_skips (preferred : String) :
    ∀ (front rest : List AudioInputDevice),
    (∀ d0 ∈ front, strContains d0.name preferred = false) →
    selectLoop preferred (front ++ rest) = selectLoop preferred rest
  | [], _, _ => rfl
  | a :: fr, rest, hf => by
    have ha := hf a (List.mem_cons_self _ _)
    show (if strContains a.name preferred = true then a
          else selectLoop preferred (fr ++ rest)) = selectLoop preferred rest
    rw [if_neg (by simp [ha])]
    exact selectLoop_skips preferred fr rest
      (fun d0 hd0 => hf d0 (List.mem_cons_of_mem a hd0))

/-- Claim C4: with an empty preferred name the selector returns the default
sentinel device; with a nonempty preferred name it returns the first device
in catalog order whose name contains the preferred string as a
case-sensitive substring, and the sentinel when no device name contains
it. -/
theorem c4_select_device (preferred : String)
    (front back devices : List AudioInputDevice) (d : AudioInputDevice) :
    (preferred.isEmpty = true →
      selectAudioInputDevice preferred devices = defaultDevice)
    ∧ (preferred.isEmpty = false →
        (∀ d0 ∈ front, strContains d0.name preferred = false) →
        strContains d.name preferred = true →
        selectAudioInputDevice preferred (front ++ d :: back) = d)
    ∧ (preferred.isEmpty = false →
        (∀ d0 ∈ devices, strContains d0.name preferred = false) →
        selectAudioInputDevice preferred devices = defaultDevice) := by
  refine ⟨?_, ?_, ?_⟩
  · intro h
    simp [selectAudioInputDevice, h]
  · intro h hf hd
    have : selectAudioInputDevice preferred (front ++ d :: back)
        = selectLoop preferred (front ++ d :: back) := by
      simp [selectAudioInputDevice, h]
    rw [this, selectLoop_skips preferred front (d :: back) hf]
    show (if strContains d.name preferred = true then d
          else selectLoop preferred back) = d
    rw [if_pos hd]
  · intro h hall
    have : selectAudioInputDevice preferred devices
        = selectLoop preferred devices := by
      simp [selectAudioInputDevice, h]
    rw [this]
    have hskip := selectLoop_skips preferred devices [] hall
    rw [List.append_nil] at hskip
    exact hskip

/-- Closed instance of C4, mirroring the selector tests of the repository:
the preferred name "USB" skips the non-matching first device and picks the
first matching one. -/
theorem c4_witness :
    selectAudioInputDevice "USB"
      ([{ index := "0", name := "Built-in Microphone" }]
        ++ { index := "1", name := "USB Microphone" }
          :: [{ index := "2", name := "Headset Mic" }])
      = { index := "1", name := "USB Microphone" } :=
  (c4_select_device "USB"
      [{ index := "0", name := "Built-in Microphone" }]
      [{ index := "2", name := "Headset Mic" }] []
      { index := "1", name := "USB Microphone" }).2.1
    (by decide) (by decide) (by decide)

/-- Claim C5: in the spec-modelled command builder that takes the
`max_recording_duration` parameter, a zero duration produces exactly the
base argument list (no duration-limiting flag), and a positive duration
appends the platform duration-limit flag with its value. -/
theorem c5_max_duration_flag (platformInputFormat deviceIndex : String)
    (silenceLimit silenceDetectNoise maxDur : Int) (outputFile : String) :
    (maxDur = 0 →
      buildRecordingArgumentsWithMaxDuration platformInputFormat deviceIndex
          silenceLimit silenceDetectNoise maxDur outputFile
        = ["-f", platformInputFormat, "-i", ":" ++ deviceIndex,
           "-acodec", "pcm_s16le",
           "-af", "silencedetect=n=-" ++ toString silenceDetectNoise ++ "dB:d="
             ++ toString silenceLimit,
           outputFile, "-y"])
    ∧ (0 < maxDur →
      buildRecordingArgumentsWithMaxDuration platformInputFormat deviceIndex
          silenceLimit silenceDetectNoise maxDur outputFile
        = ["-f", platformInputFormat, "-i", ":" ++ deviceIndex,
           "-acodec", "pcm_s16le",
           "-af", "silencedetect=n=-" ++ toString silenceDetectNoise ++ "dB:d="
             ++ toString silenceLimit,
           outputFile, "-y", "-t", toString maxDur]) := by
  constructor
  · intro h
    subst h
    simp [buildRecordingArgumentsWithMaxDuration]
  · intro h
    simp [buildRecordingArgumentsWithMaxDuration, h]

/-- Closed instance of C5: duration 0 emits the base list; duration 60
appends the duration flag. -/
theorem c5_witness :
    buildRecordingArgumentsWithMaxDuration "pulse" "0" 2 30 0 "out.wav"
      = ["-f", "pulse", "-i", ":" ++ "0", "-acodec", "pcm_s16le",
         "-af", "silencedetect=n=-" ++ toString (30 : Int) ++ "dB:d="
           ++ toString (2 : Int),
         "out.wav", "-y"]
    ∧ buildRecordingArgumentsWithMaxDuration "pulse" "0" 2 30 60 "out.wav"
      = ["-f", "pulse", "-i", ":" ++ "0", "-acodec", "pcm_s16le",
         "-af", "silencedetect=n=-" ++ toString (30 : Int) ++ "dB:d="
           ++ toString (2 : Int),
         "out.wav", "-y", "-t", toString (60 : Int)] :=
  ⟨(c5_max_duration_flag "pulse" "0" 2 30 0 "out.wav").1 rfl,
   (c5_max_duration_flag "pulse" "0" 2 30 60 "out.wav").2 (by decide)⟩

theorem checkFFmpegLoop_no_marker :
    ∀ lines : List String,
    (∀ l ∈ lines, strContains l "ffmpeg version" = false) →
    checkFFmpegLoop lines = Except.error FFMPEGError.notFound
  | [], _ => rfl
  | l :: ls, h => by
    have hl := h l (List.mem_cons_self _ _)
    show (if strContains l "ffmpeg version" = true then Except.ok true
          else checkFFmpegLoop ls) = _
    rw [if_neg (by simp [hl])]
    exact checkFFmpegLoop_no_marker ls
      (fun x hx => h x (List.mem_cons_of_mem l hx))

theorem checkFFmpegLoop_marker :
    ∀ lines : List String,
    (∃ l ∈ lines, strContains l "ffmpeg version" = true) →
    checkFFmpegLoop lines = Except.ok true
  | [], h => by
    rcases h with ⟨l, hl, _⟩
    cases hl
  | l :: ls, h => by
    show (if strContains l "ffmpeg version" = true then Except.ok true
          else checkFFmpegLoop ls) = _
    by_cases hl : strContains l "ffmpeg version" = true
    · rw [if_pos hl]
    · rw [if_neg hl]
      rcases h with ⟨x, hx, hxs⟩
      rcases List.mem_cons.mp hx with rfl | hx2
      · exact absurd hxs hl
      · exact checkFFmpegLoop_marker ls ⟨x, hx2, hxs⟩

/-- Claim C6: when the recorder tool is missing, or its version probe output
lacks the version marker, `record_audio` fails with the backend-unavailable
error (`NotFound`) before spawning any recording subprocess; when the
output directory cannot be created, it fails with the storage-unavailable
error (`CouldNotCreateDirectory`), also without spawning the recording
subprocess. -/
theorem c6_failures_before_recording (env : FFmpegEnv) :
    (env.versionOutput = none →
      recordAudio env = (Except.error FFMPEGError.notFound, false))
    ∧ (∀ vlines, env.versionOutput = some vlines →
        (∀ l ∈ vlines, strContains l "ffmpeg version" = false) →
        recordAudio env = (Except.error FFMPEGError.notFound, false))
    ∧ (∀ vlines dlines, env.versionOutput = some vlines →
        (∃ l ∈ vlines, strContains l "ffmpeg version" = true) →
        env.listOutput = some dlines →
        env.createDirectoryOk = false →
        recordAudio env
          = (Except.error FFMPEGError.couldNotCreateDirectory, false)) := by
  refine ⟨?_, ?_, ?_⟩
  · intro h
    simp [recordAudio, checkFFmpeg, h]
  · intro vlines h hmark
    simp [recordAudio, checkFFmpeg, h, checkFFmpegLoop_no_marker vlines hmark]
  · intro vlines dlines hv hmark hlist hdir
    simp [recordAudio, checkFFmpeg, hv, checkFFmpegLoop_marker vlines hmark,
      ffmpegGetAudioInputDevices, hlist, recordAudioWithDevice, hdir]

/-- Closed instances of C6: a failed version probe yields `NotFound` with no
recording subprocess; a failed directory creation yields
`CouldNotCreateDirectory` with no recording subprocess. -/
theorem c6_witness :
    recordAudio
        { versionOutput := none, listOutput := some [], preferredDevice := "",
          createDirectoryOk := true, spawnOk := true, stderrPipeOk := true,
          waitStatus := some (ExitStatus.exited 0), outputFile := "o.wav" }
      = (Except.error FFMPEGError.notFound, false)
    ∧ recordAudio
        { versionOutput := some ["ffmpeg version 6.0"], listOutput := some [],
          preferredDevice := "", createDirectoryOk := false, spawnOk := true,
          stderrPipeOk := true, waitStatus := some (ExitStatus.exited 0),
          outputFile := "o.wav" }
      = (Except.error FFMPEGError.couldNotCreateDirectory, false) :=
  ⟨(c6_failures_before_recording _).1 rfl,
   (c6_failures_before_recording _).2.2 ["ffmpeg version 6.0"] [] rfl
     (by decide) rfl rfl⟩

/-- Claim C7: for every readable output of the platform listing tool the
device query returns `Ok` with the parsed catalog — in particular `Ok []`
when no device lines are found — and the backend-unavailable error occurs
exactly when the tool itself could not be invoked.  Stated for both the
Linux (`pulse`) and the AVFoundation query. -/
theorem c7_list_devices_total (lines : List String) (out : Option (List String)) :
    linuxListInputDevices (some lines) = Except.ok (parsePulseDeviceLines lines)
    ∧ ffmpegGetAudioInputDevices (some lines)
        = Except.ok (parseAVFoundationDeviceLines lines)
    ∧ (parsePulseDeviceLines lines = [] →
        linuxListInputDevices (some lines) = Except.ok [])
    ∧ (∀ e, linuxListInputDevices out = Except.error e ↔
        (out = none ∧ e = AudioError.couldNotExecuteFFMPEG))
    ∧ (∀ e, ffmpegGetAudioInputDevices out = Except.error e ↔
        (out = none ∧ e = FFMPEGError.couldNotExecute)) := by
  refine ⟨rfl, rfl, ?_, ?_, ?_⟩
  · intro h
    simp [linuxListInputDevices, h]
  · intro e
    cases out with
    | none => simp [linuxListInputDevices, eq_comm]
    | some ls => simp [linuxListInputDevices]
  · intro e
    cases out with
    | none => simp [ffmpegGetAudioInputDevices, eq_comm]
    | some ls => simp [ffmpegGetAudioInputDevices]

/-- Closed instance of C7: an output with no device lines yields `Ok []`,
and a failed tool invocation yields the backend-unavailable error. -/
theorem c7_witness :
    linuxListInputDevices (some ["hello"]) = Except.ok []
    ∧ (linuxListInputDevices none
        = Except.error AudioError.couldNotExecuteFFMPEG) :=
  ⟨(c7_list_devices_total ["hello"] none).2.2.1 (by decide),
   ((c7_list_devices_total ["hello"] none).2.2.2.1
      AudioError.couldNotExecuteFFMPEG).2 ⟨rfl, rfl⟩⟩

/-- Claim C8: for every device id, silence limit, noise floor and output
path, each platform builder returns exactly the ordered sequence: the
platform input-format flag and value, `-i` with the device selector,
`-acodec pcm_s16le`, `-af` with the silencedetect filter (noise floor
negated), the output path, and `-y`.  Purity (identical inputs, identical
sequence) is inherent to the embedding as a function. -/
theorem c8_recording_argument_sequences (deviceIndex : String)
    (silenceLimit silenceDetectNoise : Int) (outputFile : String) :
    buildLinuxRecordingArguments deviceIndex silenceLimit silenceDetectNoise
        outputFile
      = ["-f", "pulse", "-i", ":" ++ deviceIndex, "-acodec", "pcm_s16le",
         "-af", "silencedetect=n=-" ++ toString silenceDetectNoise ++ "dB:d="
           ++ toString silenceLimit, outputFile, "-y"]
    ∧ buildMacOSRecordingArguments deviceIndex silenceLimit silenceDetectNoise
        outputFile
      = ["-f", "avfoundation", "-i", ":" ++ deviceIndex, "-acodec", "pcm_s16le",
         "-af", "silencedetect=n=-" ++ toString silenceDetectNoise ++ "dB:d="
           ++ toString silenceLimit, outputFile, "-y"] :=
  ⟨rfl, rfl⟩

theorem avfMatchAt_digits :
    ∀ (cs : List Char) (idx nm : String),
    avfMatchAt cs = some (idx, nm) →
    idx.data ≠ [] ∧ ∀ c ∈ idx.data, isDigitChar c = true := by
  intro cs idx nm h
  unfold avfMatchAt at h
  split at h
  · rename_i rest
    split at h
    · cases h
    · rename_i hne
      split at h
      · rename_i rest3
        split at h
        · cases h
        · injection h with h1
          injection h1 with hidx _
          subst hidx
          constructor
          · intro hd
            apply hne
            simp [String.mk] at hd ⊢
            exact hd
          · intro c hc
            exact List.mem_takeWhile_imp hc
      · cases h
  · cases h

theorem avfLineCapture_digits :
    ∀ (cs : List Char) (idx nm : String),
    avfLineCapture cs = some (idx, nm) →
    idx.data ≠ [] ∧ ∀ c ∈ idx.data, isDigitChar c = true
  | [], _, _, h => by cases h
  | c :: cs, idx, nm, h => by
    unfold avfLineCapture at h
    cases hm : avfMatchAt (c :: cs) with
    | some r =>
      rw [hm] at h
      cases r with
      | mk i n =>
        injection h with h1
        cases h1
        exact avfMatchAt_digits (c :: cs) idx nm hm
    | none =>
      rw [hm] at h
      exact avfLineCapture_digits cs idx nm h

theorem parseAVFLoop_index_digits :
    ∀ (b : Bool) (lines : List String) (d : AudioInputDevice),
    d ∈ parseAVFLoop b lines →
    d.index.data ≠ [] ∧ ∀ c ∈ d.index.data, isDigitChar c = true
  | _, [], d, h => absurd h (List.not_mem_nil d)
  | b, line :: rest, d, h => by
    unfold parseAVFLoop at h
    split at h
    · exact parseAVFLoop_index_digits true rest d h
    · split at h
      · cases hm : avfLineCapture line.data with
        | some r =>
          rw [hm] at h
          cases r with
          | mk idx nm =>
            rcases List.mem_cons.mp h with rfl | htail
            · exact avfLineCapture_digits line.data idx nm hm
            · exact parseAVFLoop_index_digits b rest d htail
        | none =>
          rw [hm] at h
          exact parseAVFLoop_index_digits b rest d h
      · exact parseAVFLoop_index_digits b rest d h

theorem parsePulseLoop_member :
    ∀ (b : Bool) (lines : List String) (d : AudioInputDevice),
    d ∈ parsePulseLoop b lines →
    ∃ l ∈ lines, strContains l "_input" = true
      ∧ pulseLineCapture l.data = some (d.index, d.name)
  | _, [], d, h => absurd h (List.not_mem_nil d)
  | b, line :: rest, d, h => by
    unfold parsePulseLoop at h
    split at h
    · rcases parsePulseLoop_member true rest d h with ⟨l, hl, hprop⟩
      exact ⟨l, List.mem_cons_of_mem line hl, hprop⟩
    · split at h
      · rename_i hcond
        cases hm : pulseLineCapture line.data with
        | some r =>
          rw [hm] at h
          cases r with
          | mk idx nm =>
            rcases List.mem_cons.mp h with rfl | htail
            · exact ⟨line, List.mem_cons_self _ _,
                (Bool.and_eq_true _ _ |>.mp hcond).2, hm⟩
            · rcases parsePulseLoop_member b rest d htail with ⟨l, hl, hprop⟩
              exact ⟨l, List.mem_cons_of_mem line hl, hprop⟩
        | none =>
          rw [hm] at h
          rcases parsePulseLoop_member b rest d h with ⟨l, hl, hprop⟩
          exact ⟨l, List.mem_cons_of_mem line hl, hprop⟩
      · rcases parsePulseLoop_member b rest d h with ⟨l, hl, hprop⟩
        exact ⟨l, List.mem_cons_of_mem line hl, hprop⟩

/-- Claim C9 counterexample: the Linux device-list parser does emit the
default sentinel device for the diagnostic output whose device line is
`"default [default]_input"` — the claim that the catalog never contains the
sentinel is false as stated. -/
theorem c9_counterexample :
    defaultDevice ∈ parsePulseDeviceLines
      ["Auto-detected sources for pulse", "default [default]_input"] := by
  decide

/-- Claim C9 amended: the catalog query never synthesizes the sentinel on
its own — the sentinel can appear in the Linux catalog only when a line of
the diagnostic output of the tool itself contains `_input` and matches the device
pattern with id token and bracketed name both literally `default`; the
AVFoundation parser, whose ids are nonempty digit runs, can never produce
the sentinel at all. -/
theorem c9_sentinel_only_from_tool_output (lines : List String)
    (d : AudioInputDevice) :
    (defaultDevice ∈ parsePulseDeviceLines lines →
      ∃ l ∈ lines, strContains l "_input" = true
        ∧ pulseLineCapture l.data = some ("default", "default"))
    ∧ (d ∈ parseAVFoundationDeviceLines lines → d ≠ defaultDevice) := by
  constructor
  · intro h
    exact parsePulseLoop_member false lines defaultDevice h
  · intro h hd
    subst hd
    have hdig := parseAVFLoop_index_digits false lines defaultDevice h
    have hdchar : isDigitChar 'd' = true := hdig.2 'd' (by decide)
    exact absurd hdchar (by decide)

/-- Closed instance of the amended C9, at the output used by the counterexample:
the sentinel in that catalog is traceable to the crafted `_input` line. -/
theorem c9_amended_witness :
    ∃ l ∈ ["Auto-detected sources for pulse", "default [default]_input"],
      strContains l "_input" = true
        ∧ pulseLineCapture l.data = some ("default", "default") :=
  (c9_sentinel_only_from_tool_output
      ["Auto-detected sources for pulse", "default [default]_input"]
      defaultDevice).1 (by decide)

end Lumine
